import Mathlib

set_option maxRecDepth 10000
set_option maxHeartbeats 1000000

/-!
Verification of the metadata-decoding pipeline of a CLR-image inspector.

The Rust source (src/main.rs) is shallowly embedded here:
* the immutable file is a `List Nat` of byte values;
* `scroll`-style cursor reads (`gread`) become `Option`-returning functions
  taking a buffer and an offset and returning the value plus the new offset;
* `usize` arithmetic is `Nat`, with 64-bit bitwise complement made explicit
  (`usizeNot`), since the source masks pointers with `!0x1ff` and
  `!(file_alignment - 1)`;
* fallible decoding returns `Option`/`Except`; an abort of the process
  (slice index out of bounds, `Option::unwrap` on `None`, checked-arithmetic
  underflow) is the distinguished error `RunErr.panicked`, while an error
  value returned through `?` is `RunErr.decodeError`;
* strings are kept as raw byte lists (all names of interest are ASCII).
-/

/-! ### Byte-cursor reads (the scroll `gread` model) -/

/-- Read one byte at `off`; fails when `off` is out of bounds. -/
def readU8 (src : List Nat) (off : Nat) : Option (Nat × Nat) :=
  match src.get? off with
  | some b => some (b, off + 1)
  | none => none

/-- Read a little-endian 16-bit value. -/
def readU16 (src : List Nat) (off : Nat) : Option (Nat × Nat) :=
  match src.get? off, src.get? (off + 1) with
  | some b0, some b1 => some (b0 + 256 * b1, off + 2)
  | _, _ => none

/-- Read a little-endian 32-bit value. -/
def readU32 (src : List Nat) (off : Nat) : Option (Nat × Nat) :=
  match src.get? off, src.get? (off + 1), src.get? (off + 2), src.get? (off + 3) with
  | some b0, some b1, some b2, some b3 =>
      some (b0 + 256 * (b1 + 256 * (b2 + 256 * b3)), off + 4)
  | _, _, _, _ => none

/-- Read a little-endian 64-bit value. -/
def readU64 (src : List Nat) (off : Nat) : Option (Nat × Nat) :=
  match readU32 src off with
  | some (lo, off1) =>
    match readU32 src off1 with
    | some (hi, off2) => some (lo + 4294967296 * hi, off2)
    | none => none
  | none => none

/-- Read a null-terminated byte string (scroll's default `&str` context):
the value is the run of non-zero bytes starting at `off`, and the cursor
advances past the run and one terminator byte.  Reading at an offset not
below the buffer length fails (scroll's bad-offset check). -/
def readCStr (src : List Nat) (off : Nat) : Option (List Nat × Nat) :=
  if off < src.length then
    let s := (src.drop off).takeWhile (fun b => b != 0)
    some (s, off + s.length + 1)
  else none

/-- Cursor re-alignment after a variable-length read, exactly as in the
source: `let padding = 4 - *offset % 4; if padding < 4 { *offset += padding }`. -/
def pad4 (off : Nat) : Nat :=
  let padding := 4 - off % 4
  if padding < 4 then off + padding else off

/-! ### Section geometry and the address mapper -/

/-- The section fields the mapper consumes (goblin's `SectionTable`,
all `u32` in the source). -/
structure SectionTable where
  virtual_size : Nat
  virtual_address : Nat
  size_of_raw_data : Nat
  pointer_to_raw_data : Nat
deriving Repr, DecidableEq

/-- Number of values of `usize` (the host is 64-bit). -/
def USIZE : Nat := 2 ^ 64

/-- Bitwise complement on a 64-bit `usize` value. -/
def usizeNot (m : Nat) : Nat := (USIZE - 1) - m % USIZE

/-- `pointer_to_raw_data & !0x1ff`: mask the raw pointer down to the fixed
512-byte physical alignment. -/
def aligned_pointer_to_raw_data (pointer_to_raw_data : Nat) : Nat :=
  Nat.land pointer_to_raw_data (usizeNot 0x1ff)

/-- `round_size` from the source: `(size + 0xfff) & !0xfff`. -/
def round_size (size : Nat) : Nat :=
  Nat.land (size + 0xfff) (usizeNot 0xfff)

/-- `section_read_size` from the source: the readable size used for
containment tests. -/
def section_read_size (s : SectionTable) (file_alignment : Nat) : Nat :=
  let read_size1 :=
    Nat.land (s.pointer_to_raw_data + s.size_of_raw_data + file_alignment - 1)
      (usizeNot (file_alignment - 1))
  let read_size := min read_size1 (round_size s.size_of_raw_data)
  if s.virtual_size = 0 then read_size
  else min read_size (round_size s.virtual_size)

/-- `is_in_range` from the source: `r1 <= rva && rva < r2`. -/
def is_in_range (rva r1 r2 : Nat) : Bool :=
  decide (r1 ≤ rva) && decide (rva < r2)

/-- `is_in_section` from the source. -/
def is_in_section (rva : Nat) (s : SectionTable) (file_alignment : Nat) : Bool :=
  is_in_range rva s.virtual_address (s.virtual_address + section_read_size s file_alignment)

/-- `rva2offset` from the source (only ever invoked under `is_in_section`,
so the subtraction cannot underflow). -/
def rva2offset (rva : Nat) (s : SectionTable) : Nat :=
  (rva - s.virtual_address) + aligned_pointer_to_raw_data s.pointer_to_raw_data

/-- `find_offset` from the source: first section containing the address wins. -/
def find_offset (rva : Nat) (sections : List SectionTable) (file_alignment : Nat) : Option Nat :=
  match sections with
  | [] => none
  | s :: rest =>
    if is_in_section rva s file_alignment then some (rva2offset rva s)
    else find_offset rva rest file_alignment

/-! ### CLI header and metadata root -/

/-- goblin's `DataDirectory`: two `u32` fields. -/
structure DataDirectory where
  virtual_address : Nat
  size : Nat
deriving Repr, DecidableEq

/-- The CLI (CLR) header record, decoded field by field in declaration
order (the derived `Pread` of the source). -/
structure CliHeader where
  cb : Nat
  major_version : Nat
  minor_version : Nat
  metadata : DataDirectory
  flags : Nat
  entry_point_token : Nat
deriving Repr, DecidableEq

/-- Decode a `CliHeader` at `off` (all fields little-endian). -/
def readCliHeader (src : List Nat) (off : Nat) : Option (CliHeader × Nat) :=
  match readU32 src off with
  | none => none
  | some (cb, o1) =>
    match readU16 src o1 with
    | none => none
    | some (maj, o2) =>
      match readU16 src o2 with
      | none => none
      | some (minv, o3) =>
        match readU32 src o3 with
        | none => none
        | some (mva, o4) =>
          match readU32 src o4 with
          | none => none
          | some (msz, o5) =>
            match readU32 src o5 with
            | none => none
            | some (fl, o6) =>
              match readU32 src o6 with
              | none => none
              | some (tok, o7) =>
                some (⟨cb, maj, minv, ⟨mva, msz⟩, fl, tok⟩, o7)

/-- A stream-directory record: offset (relative to the metadata root),
size, and a null-terminated name. -/
structure StreamHeader where
  offset : Nat
  size : Nat
  name : List Nat
deriving Repr, DecidableEq

/-- `StreamHeader::try_from_ctx`: offset, size, null-terminated name. -/
def readStreamHeader (src : List Nat) (off : Nat) : Option (StreamHeader × Nat) :=
  match readU32 src off with
  | none => none
  | some (ofs, o1) =>
    match readU32 src o1 with
    | none => none
    | some (sz, o2) =>
      match readCStr src o2 with
      | none => none
      | some (nm, o3) => some (⟨ofs, sz, nm⟩, o3)

/-- The loop body of `MetadataRoot::try_from_ctx`: read `n` stream headers,
re-aligning the cursor to 4 bytes after each one. -/
def readStreamHeaders (src : List Nat) : Nat → Nat → Option (List StreamHeader × Nat)
  | 0, off => some ([], off)
  | n + 1, off =>
    match readStreamHeader src off with
    | none => none
    | some (h, o1) =>
      match readStreamHeaders src n (pad4 o1) with
      | none => none
      | some (tl, o2) => some (h :: tl, o2)

/-- The metadata root record.  The source reads the `signature` field and
stores it; it performs no comparison against a magic value. -/
structure MetadataRoot where
  signature : Nat
  major_version : Nat
  minor_version : Nat
  reserved : Nat
  length : Nat
  version : List Nat
  flags : Nat
  streams : Nat
  stream_headers : List StreamHeader
deriving Repr, DecidableEq

/-- `MetadataRoot::try_from_ctx`, with the cursor relative to the start of
the slice handed to it (scroll slices the file at the root's offset, so
the 4-byte re-alignment is relative to the root's start). -/
def metadataRootDecode (src : List Nat) (off : Nat) : Option (MetadataRoot × Nat) :=
  match readU32 src off with
  | none => none
  | some (sig, o1) =>
    match readU16 src o1 with
    | none => none
    | some (maj, o2) =>
      match readU16 src o2 with
      | none => none
      | some (minv, o3) =>
        match readU32 src o3 with
        | none => none
        | some (res, o4) =>
          match readU32 src o4 with
          | none => none
          | some (len, o5) =>
            match readCStr src o5 with
            | none => none
            | some (ver, o6) =>
              match readU16 src (pad4 o6) with
              | none => none
              | some (fl, o7) =>
                match readU16 src o7 with
                | none => none
                | some (strm, o8) =>
                  match readStreamHeaders src strm o8 with
                  | none => none
                  | some (hdrs, o9) =>
                    some (⟨sig, maj, minv, res, len, ver, fl, strm, hdrs⟩, o9)

/-! ### The compressed table stream -/

/-- A Method-Definition row: `u32, u16, u16, u16, u16, u16`. -/
structure MethodDef where
  rva : Nat
  impl_flags : Nat
  flags : Nat
  name : Nat
  signature : Nat
  param_list : Nat
deriving Repr, DecidableEq

/-- Decode one Method row (14 bytes). -/
def readMethodDef (src : List Nat) (off : Nat) : Option (MethodDef × Nat) :=
  match readU32 src off with
  | none => none
  | some (rva, o1) =>
    match readU16 src o1 with
    | none => none
    | some (impl, o2) =>
      match readU16 src o2 with
      | none => none
      | some (fl, o3) =>
        match readU16 src o3 with
        | none => none
        | some (nm, o4) =>
          match readU16 src o4 with
          | none => none
          | some (sg, o5) =>
            match readU16 src o5 with
            | none => none
            | some (pl, o6) => some (⟨rva, impl, fl, nm, sg, pl⟩, o6)

/-- Decode `count` consecutive Method rows. -/
def readMethods (src : List Nat) : Nat → Nat → Option (List MethodDef × Nat)
  | 0, off => some ([], off)
  | n + 1, off =>
    match readMethodDef src off with
    | none => none
    | some (m, o1) =>
      match readMethods src n o1 with
      | none => none
      | some (tl, o2) => some (m :: tl, o2)

/-- How a run of the program ends abnormally: `decodeError` is an error
value surfaced through `?`/`Result`; `panicked` is a process abort (slice
index out of bounds, `unwrap` on `None`, checked-arithmetic underflow). -/
inductive RunErr where
  | decodeError
  | panicked
deriving Repr, DecidableEq

/-- The static per-table row-byte-width lookup array of the source:
36 entries for table ids 0x00 through 0x23. -/
def table_sizes : List Nat :=
  [10, 6, 14, 0, 6, 0, 14, 0,
   6, 0, 6, 0, 6, 0, 0, 0,
   0, 2, 0, 0, 0, 0, 0, 0,
   0, 0, 0, 0, 0, 0, 0, 0,
   22, 0, 0, 20]

/-- The decode-or-skip loop over the recorded `(table-id, row-count)`
pairs: table id 6 decodes `count` Method rows; any other id advances the
cursor by `table_sizes[id] * count` bytes, and indexing `table_sizes`
out of bounds is the panic of the source's `table_sizes[i as usize]`. -/
def skipTables (src : List Nat) : List (Nat × Nat) → Nat → Except RunErr (List MethodDef × Nat)
  | [], off => .ok ([], off)
  | (i, count) :: rest, off =>
    if i = 6 then
      match readMethods src count off with
      | none => .error .decodeError
      | some (ms, o1) =>
        match skipTables src rest o1 with
        | .error e => .error e
        | .ok (tl, o2) => .ok (ms ++ tl, o2)
    else
      match table_sizes.get? i with
      | none => .error .panicked
      | some w => skipTables src rest (off + w * count)

/-- The row-count loop: for each bit index in `is` (the source iterates
0..63 ascending), if that bit is set in `valid` (`valid & j == j` with
`j = 1 << i`), read one little-endian 32-bit row count. -/
def readRowsAux (src : List Nat) (valid : Nat) : List Nat → Nat → Option (List (Nat × Nat) × Nat)
  | [], off => some ([], off)
  | i :: is, off =>
    if Nat.land valid (2 ^ i) = 2 ^ i then
      match readU32 src off with
      | none => none
      | some (c, o1) =>
        match readRowsAux src valid is o1 with
        | none => none
        | some (tl, o2) => some ((i, c) :: tl, o2)
    else readRowsAux src valid is off

/-- Read the `(table-id, row-count)` pairs for all 64 bit positions. -/
def readRows (src : List Nat) (valid : Nat) (off : Nat) : Option (List (Nat × Nat) × Nat) :=
  readRowsAux src valid (List.range 64) off

/-- The decoded `#~` stream. -/
structure TildaStream where
  reserved : Nat
  major_version : Nat
  minor_version : Nat
  heap_sizes : Nat
  reserved2 : Nat
  valid : Nat
  sorted : Nat
  rows : List (Nat × Nat)
  methods : List MethodDef
deriving Repr, DecidableEq

/-- `TildaStream::try_from_ctx`: fixed header, row-count list, then the
decode-or-skip loop. -/
def tildaStreamDecode (src : List Nat) : Except RunErr (TildaStream × Nat) :=
  match readU32 src 0 with
  | none => .error .decodeError
  | some (res, o1) =>
    match readU8 src o1 with
    | none => .error .decodeError
    | some (maj, o2) =>
      match readU8 src o2 with
      | none => .error .decodeError
      | some (minv, o3) =>
        match readU8 src o3 with
        | none => .error .decodeError
        | some (hs, o4) =>
          match readU8 src o4 with
          | none => .error .decodeError
          | some (res2, o5) =>
            match readU64 src o5 with
            | none => .error .decodeError
            | some (valid, o6) =>
              match readU64 src o6 with
              | none => .error .decodeError
              | some (sorted, o7) =>
                match readRows src valid o7 with
                | none => .error .decodeError
                | some (rows, o8) =>
                  match skipTables src rows o8 with
                  | .error e => .error e
                  | .ok (methods, o9) =>
                    .ok (⟨res, maj, minv, hs, res2, valid, sorted, rows, methods⟩, o9)

/-! ### The driver pipeline (`main` after the external PE parse) -/

/-- The bytes of the stream name `#~`. -/
def tildeName : List Nat := [0x23, 0x7E]

/-- The bytes of the stream name `#Strings`. -/
def stringsName : List Nat := [0x23, 0x53, 0x74, 0x72, 0x69, 0x6E, 0x67, 0x73]

/-- The tail of `main`, from the point where the external image loader has
produced the file bytes, the section list, the file alignment, and the
CLR-directory virtual address: map the CLI-header RVA, decode the CLI
header, map its metadata RVA, decode the metadata root, decode the `#~`
stream at root offset + `#~` header offset, then print the null-terminated
string at (that `#~` file offset) + (`#Strings` header offset) − 4.
The two stream-header lookups are `unwrap`ped in the source, and
`offset - 4` is checked `usize` arithmetic, hence the `panicked` cases. -/
def mainResolve (file : List Nat) (sections : List SectionTable) (file_alignment : Nat)
    (cliRva : Nat) : Except RunErr (List Nat) :=
  match find_offset cliRva sections file_alignment with
  | none => .error .decodeError
  | some cliOff =>
    match readCliHeader file cliOff with
    | none => .error .decodeError
    | some (cli, _) =>
      match find_offset cli.metadata.virtual_address sections file_alignment with
      | none => .error .decodeError
      | some mdOff =>
        match metadataRootDecode (file.drop mdOff) 0 with
        | none => .error .decodeError
        | some (root, _) =>
          match root.stream_headers.find? (fun h => h.name = tildeName) with
          | none => .error .panicked
          | some th =>
            match tildaStreamDecode (file.drop (mdOff + th.offset)) with
            | .error e => .error e
            | .ok _ =>
              match root.stream_headers.find? (fun h => h.name = stringsName) with
              | none => .error .panicked
              | some sh =>
                if mdOff + th.offset + sh.offset < 4 then .error .panicked
                else
                  match readCStr file (mdOff + th.offset + sh.offset - 4) with
                  | none => .error .decodeError
                  | some (n, _) => .ok n

/-! ### Spec-side comparison definitions -/

/-- Standard round-up to a multiple (meaningful for `0 < a`). -/
def roundUp (x a : Nat) : Nat := (x + a - 1) / a * a

/-- Modelled from the spec: the readable-size rule of the Address Mapper
stated with genuine round-up ("candidate = round_up(raw_pointer +
raw_size, file_alignment), clamped to round_up(raw_size, 0x1000); if
virtual size is zero the readable size is that candidate, otherwise the
minimum of the candidate and round_up(virtual_size, 0x1000)"). -/
def section_read_size_spec (s : SectionTable) (file_alignment : Nat) : Nat :=
  let cand := min (roundUp (s.pointer_to_raw_data + s.size_of_raw_data) file_alignment)
    (roundUp s.size_of_raw_data 0x1000)
  if s.virtual_size = 0 then cand
  else min cand (roundUp s.virtual_size 0x1000)

/-- Population count of a 64-bit value: the number of set bit positions
below 64. -/
def popcount64 (v : Nat) : Nat :=
  ((List.range 64).filter (fun i => Nat.testBit v i)).length

/-- Modelled from the spec: the Entry Point Resolver of §4.4, which is
absent from the source.  Table id = token >> 24 and must equal the
Method-Definition id 6; row index = (token & 0x00FFFFFF) − 1, 1-based so
index value 0 is rejected and the row must exist; the selected row's name
field is a byte offset into the string heap, where the null-terminated
string is read. -/
def resolveEntryPoint (file : List Nat) (tok : Nat) (methods : List MethodDef)
    (stringsBase : Nat) : Option (List Nat) :=
  if tok >>> 24 = 6 then
    if Nat.land tok 0xFFFFFF = 0 then none
    else
      match methods.get? (Nat.land tok 0xFFFFFF - 1) with
      | none => none
      | some m =>
        match readCStr file (stringsBase + m.name) with
        | none => none
        | some (n, _) => some n
  else none

/-! ### Concrete images used by the counterexamples and witnesses -/

/-- A 225-byte synthetic image.  The CLI header sits at file offset 0
(RVA 0x1000); its metadata directory points at RVA 0x1020 (file offset
0x20), where a metadata root with streams `#~` (offset 0x40) and
`#Strings` (offset 0x80) lives; the `#~` stream at file offset 0x60 holds
one Method row whose name field is 10; the string heap at file offset
0xA0 holds "Main" at heap offset 10; the bytes at file offset 0xDC spell
"Oops".  The metadata-root signature bytes `s0..s3` (file offsets
0x20..0x23) and the entry-point-token bytes `t0..t3` (file offsets
20..23) are parameters. -/
def cexFileSig (s0 s1 s2 s3 t0 t1 t2 t3 : Nat) : List Nat :=
  [72, 0, 0, 0, 2, 0, 5, 0, 32, 16, 0, 0, 72, 0, 0, 0, 0, 0, 0, 0,
   t0, t1, t2, t3,
   0, 0, 0, 0, 0, 0, 0, 0,
   s0, s1, s2, s3,
   1, 0, 1, 0, 0, 0, 0, 0, 0, 0, 0, 0, 0, 0, 0, 0, 0, 0, 2, 0,
   64, 0, 0, 0, 0, 1, 0, 0, 35, 126, 0, 0, 128, 0, 0, 0, 0, 1, 0, 0,
   35, 83, 116, 114, 105, 110, 103, 115, 0, 0, 0, 0, 0, 0, 0, 0, 0, 0, 0, 0,
   0, 0, 0, 0, 2, 0, 0, 0, 64, 0, 0, 0, 0, 0, 0, 0, 0, 0, 0, 0,
   0, 0, 0, 0, 1, 0, 0, 0, 0, 0, 0, 0, 0, 0, 0, 0, 10, 0, 0, 0,
   0, 0, 0, 0, 0, 0, 0, 0, 0, 0, 0, 0, 0, 0, 0, 0, 0, 0, 0, 0,
   0, 0, 0, 0, 0, 0, 0, 0, 0, 0, 0, 0, 0, 0, 77, 97, 105, 110, 0, 0,
   0, 0, 0, 0, 0, 0, 0, 0, 0, 0, 0, 0, 0, 0, 0, 0, 0, 0, 0, 0,
   0, 0, 0, 0, 0, 0, 0, 0, 0, 0, 0, 0, 0, 0, 0, 0, 0, 0, 0, 0,
   0, 0, 0, 0, 79, 111, 112, 115, 0]

/-- The closed byte list that `cexFileSig` holds from file offset 0x24
on (everything after the signature bytes). -/
def rootSliceTail : List Nat :=
  [1, 0, 1, 0, 0, 0, 0, 0, 0, 0, 0, 0, 0, 0, 0, 0, 0, 0, 2, 0,
   64, 0, 0, 0, 0, 1, 0, 0, 35, 126, 0, 0, 128, 0, 0, 0, 0, 1, 0, 0,
   35, 83, 116, 114, 105, 110, 103, 115, 0, 0, 0, 0, 0, 0, 0, 0, 0, 0, 0, 0,
   0, 0, 0, 0, 2, 0, 0, 0, 64, 0, 0, 0, 0, 0, 0, 0, 0, 0, 0, 0,
   0, 0, 0, 0, 1, 0, 0, 0, 0, 0, 0, 0, 0, 0, 0, 0, 10, 0, 0, 0,
   0, 0, 0, 0, 0, 0, 0, 0, 0, 0, 0, 0, 0, 0, 0, 0, 0, 0, 0, 0,
   0, 0, 0, 0, 0, 0, 0, 0, 0, 0, 0, 0, 0, 0, 77, 97, 105, 110, 0, 0,
   0, 0, 0, 0, 0, 0, 0, 0, 0, 0, 0, 0, 0, 0, 0, 0, 0, 0, 0, 0,
   0, 0, 0, 0, 0, 0, 0, 0, 0, 0, 0, 0, 0, 0, 0, 0, 0, 0, 0, 0,
   0, 0, 0, 0, 79, 111, 112, 115, 0]

/-- The bytes of the synthetic image from the metadata root (file offset
0x20) on, for the correct signature `0x42 0x53 0x4A 0x42`. -/
def rootSlice : List Nat :=
  [66, 83, 74, 66, 1, 0, 1, 0, 0, 0, 0, 0, 0, 0, 0, 0, 0, 0, 0, 0,
   0, 0, 2, 0, 64, 0, 0, 0, 0, 1, 0, 0, 35, 126, 0, 0, 128, 0, 0, 0,
   0, 1, 0, 0, 35, 83, 116, 114, 105, 110, 103, 115, 0, 0, 0, 0, 0, 0, 0, 0,
   0, 0, 0, 0, 0, 0, 0, 0, 2, 0, 0, 0, 64, 0, 0, 0, 0, 0, 0, 0,
   0, 0, 0, 0, 0, 0, 0, 0, 1, 0, 0, 0, 0, 0, 0, 0, 0, 0, 0, 0,
   10, 0, 0, 0, 0, 0, 0, 0, 0, 0, 0, 0, 0, 0, 0, 0, 0, 0, 0, 0,
   0, 0, 0, 0, 0, 0, 0, 0, 0, 0, 0, 0, 0, 0, 0, 0, 0, 0, 77, 97,
   105, 110, 0, 0, 0, 0, 0, 0, 0, 0, 0, 0, 0, 0, 0, 0, 0, 0, 0, 0,
   0, 0, 0, 0, 0, 0, 0, 0, 0, 0, 0, 0, 0, 0, 0, 0, 0, 0, 0, 0,
   0, 0, 0, 0, 0, 0, 0, 0, 79, 111, 112, 115, 0]

/-- The bytes of the synthetic image from the `#~` stream (file offset
0x60) on. -/
def tildaSlice : List Nat :=
  [0, 0, 0, 0, 2, 0, 0, 0, 64, 0, 0, 0, 0, 0, 0, 0, 0, 0, 0, 0,
   0, 0, 0, 0, 1, 0, 0, 0, 0, 0, 0, 0, 0, 0, 0, 0, 10, 0, 0, 0,
   0, 0, 0, 0, 0, 0, 0, 0, 0, 0, 0, 0, 0, 0, 0, 0, 0, 0, 0, 0,
   0, 0, 0, 0, 0, 0, 0, 0, 0, 0, 0, 0, 0, 0, 77, 97, 105, 110, 0, 0,
   0, 0, 0, 0, 0, 0, 0, 0, 0, 0, 0, 0, 0, 0, 0, 0, 0, 0, 0, 0,
   0, 0, 0, 0, 0, 0, 0, 0, 0, 0, 0, 0, 0, 0, 0, 0, 0, 0, 0, 0,
   0, 0, 0, 0, 79, 111, 112, 115, 0]

/-- The image with the correct metadata magic and entry-point token
`0x06000001` (table 6, row 1). -/
def cexFile : List Nat := cexFileSig 0x42 0x53 0x4A 0x42 1 0 0 6

/-- The image with the correct magic and entry-point token `0x06000000`
(row index 0, invalid per the spec). -/
def cexFileRow0 : List Nat := cexFileSig 0x42 0x53 0x4A 0x42 0 0 0 6

/-- The image with a zeroed (wrong) metadata-root signature. -/
def cexFileBadSig : List Nat := cexFileSig 0 0 0 0 1 0 0 6

/-- The single section of the synthetic image: maps RVA 0x1000..0x2000
onto file offsets 0..0x1000. -/
def cexSections : List SectionTable := [⟨0, 0x1000, 0x1000, 0⟩]

/-- The bytes of "Oops", the string the program actually prints for the
synthetic image. -/
def oopsName : List Nat := [79, 111, 112, 115]

/-- The bytes of "Main", the name the spec's resolver would produce. -/
def mainName : List Nat := [77, 97, 105, 110]

/-- The single decoded Method row of the synthetic image. -/
def cexMethod : MethodDef := ⟨0, 0, 0, 10, 0, 0⟩

/-- Section used by the C6 counterexample: tiny raw data (0x10 bytes at
0x200) but a mapped virtual range padded out to 0x400 bytes. -/
def c6Section : SectionTable := ⟨0, 0x1000, 0x10, 0x200⟩

/-- Section of the C4 scenario: `{va: 0x2000, raw_ptr: 0x200,
raw_size: 0x400}`. -/
def c4Section : SectionTable := ⟨0, 0x2000, 0x400, 0x200⟩

/-- A 28-byte `#~` stream whose valid bitmask has only bit 6 (Method)
set, with row count 0. -/
def c9Stream : List Nat :=
  [0, 0, 0, 0, 2, 0, 0, 0,
   0x40, 0, 0, 0, 0, 0, 0, 0,
   0, 0, 0, 0, 0, 0, 0, 0,
   0, 0, 0, 0]

/-- A 28-byte `#~` stream whose valid bitmask has only bit 36 set, with
row count 1: the skip loop indexes `table_sizes[36]` out of bounds. -/
def c10Stream : List Nat :=
  [0, 0, 0, 0, 2, 0, 0, 0,
   0, 0, 0, 0, 0x10, 0, 0, 0,
   0, 0, 0, 0, 0, 0, 0, 0,
   1, 0, 0, 0]

/-- The metadata root decoded from the synthetic image (correct magic). -/
def cexRoot : MetadataRoot :=
  ⟨0x424A5342, 1, 1, 0, 0, [], 0, 2, [⟨0x40, 256, tildeName⟩, ⟨0x80, 256, stringsName⟩]⟩

/-- The metadata root decoded from the synthetic image whose signature
bytes are zero. -/
def cexBadRoot : MetadataRoot :=
  ⟨0, 1, 1, 0, 0, [], 0, 2, [⟨0x40, 256, tildeName⟩, ⟨0x80, 256, stringsName⟩]⟩

/-- The `#~` stream decoded from the synthetic image. -/
def cexStream : TildaStream := ⟨0, 2, 0, 0, 0, 64, 0, [(6, 1)], [cexMethod]⟩

/-! ### Bitmask arithmetic lemmas -/

lemma usizeNot_two_pow_sub_one (k : Nat) (hk : k ≤ 64) :
    usizeNot (2 ^ k - 1) = 2 ^ 64 - 2 ^ k := by
  have h1 : 2 ^ k ≤ 2 ^ 64 := Nat.pow_le_pow_right (by norm_num) hk
  have h2 : 1 ≤ 2 ^ k := Nat.one_le_two_pow
  have h3 : (2 ^ k - 1) % USIZE = 2 ^ k - 1 := by
    apply Nat.mod_eq_of_lt
    show 2 ^ k - 1 < 2 ^ 64
    omega
  unfold usizeNot USIZE at *
  omega

lemma land_two_pow_complement (x k : Nat) (hx : x < 2 ^ 64) (hk : k ≤ 64) :
    Nat.land x (2 ^ 64 - 2 ^ k) = x - x % 2 ^ k := by
  have hsub : x - x % 2 ^ k = 2 ^ k * (x / 2 ^ k) := by
    have := Nat.div_add_mod x (2 ^ k)
    omega
  have hmask : 2 ^ 64 - 2 ^ k = 2 ^ k * (2 ^ (64 - k) - 1) := by
    have hpow : 2 ^ k * 2 ^ (64 - k) = 2 ^ 64 := by
      rw [← pow_add]
      congr 1
      omega
    rw [Nat.mul_sub_one, hpow]
  rw [hsub, hmask]
  apply Nat.eq_of_testBit_eq
  intro i
  show Nat.testBit (x &&& 2 ^ k * (2 ^ (64 - k) - 1)) i = _
  rw [Nat.testBit_land, Nat.testBit_mul_pow_two, Nat.testBit_mul_pow_two,
    Nat.testBit_two_pow_sub_one]
  by_cases hik : k ≤ i
  · have hdiv : Nat.testBit (x / 2 ^ k) (i - k) = Nat.testBit x i := by
      rw [← Nat.shiftRight_eq_div_pow, Nat.testBit_shiftRight]
      congr 1
      omega
    by_cases hi64 : i < 64
    · have hlt : i - k < 64 - k := by omega
      simp [hik, hdiv, hlt, ge_iff_le]
    · have hbit : Nat.testBit x i = false :=
        Nat.testBit_lt_two_pow (Nat.lt_of_lt_of_le hx (Nat.pow_le_pow_right (by norm_num) (by omega)))
      have hnlt : ¬ (i - k < 64 - k) := by omega
      simp [hik, hdiv, hnlt, hbit, ge_iff_le]
  · simp [hik, ge_iff_le]

lemma land_usizeNot_mask (x k : Nat) (hx : x < 2 ^ 64) (hk : k ≤ 64) :
    Nat.land x (usizeNot (2 ^ k - 1)) = x - x % 2 ^ k := by
  rw [usizeNot_two_pow_sub_one k hk]
  exact land_two_pow_complement x k hx hk

lemma aligned_pointer_eq (p : Nat) (hp : p < 2 ^ 64) :
    aligned_pointer_to_raw_data p = p - p % 0x200 := by
  have h : (0x1ff : Nat) = 2 ^ 9 - 1 := by norm_num
  have h2 : (0x200 : Nat) = 2 ^ 9 := by norm_num
  rw [aligned_pointer_to_raw_data, h, h2]
  exact land_usizeNot_mask p 9 hp (by norm_num)

lemma sub_mod_eq_roundUp (x a : Nat) (ha : 0 < a) :
    (x + a - 1) - (x + a - 1) % a = roundUp x a := by
  have h := Nat.div_add_mod (x + a - 1) a
  rw [Nat.mul_comm] at h
  unfold roundUp
  omega

lemma round_size_eq (s : Nat) (hs : s < 2 ^ 32) :
    round_size s = roundUp s 0x1000 := by
  have hx : s + 0xfff < 2 ^ 64 := by
    have h32 : (2 : Nat) ^ 32 + 0xfff < 2 ^ 64 := by norm_num
    omega
  have h1 := land_usizeNot_mask (s + 0xfff) 12 hx (by norm_num)
  norm_num at h1
  rw [round_size, h1]
  have h2 := sub_mod_eq_roundUp s 0x1000 (by norm_num)
  have h3 : s + 0x1000 - 1 = s + 0xfff := by omega
  rw [h3] at h2
  exact h2

/-! ### Pipeline stage lemmas -/

lemma mainResolve_stages (file : List Nat) (sections : List SectionTable) (fa cliRva : Nat)
    (cliOff : Nat) (cli : CliHeader) (e1 : Nat) (mdOff : Nat) (root : MetadataRoot) (e2 : Nat)
    (th : StreamHeader) (ts : TildaStream × Nat) (sh : StreamHeader) (n : List Nat) (e3 : Nat)
    (h1 : find_offset cliRva sections fa = some cliOff)
    (h2 : readCliHeader file cliOff = some (cli, e1))
    (h3 : find_offset cli.metadata.virtual_address sections fa = some mdOff)
    (h4 : metadataRootDecode (file.drop mdOff) 0 = some (root, e2))
    (h5 : root.stream_headers.find? (fun h => h.name = tildeName) = some th)
    (h6 : tildaStreamDecode (file.drop (mdOff + th.offset)) = .ok ts)
    (h7 : root.stream_headers.find? (fun h => h.name = stringsName) = some sh)
    (h8 : ¬ (mdOff + th.offset + sh.offset < 4))
    (h9 : readCStr file (mdOff + th.offset + sh.offset - 4) = some (n, e3)) :
    mainResolve file sections fa cliRva = .ok n := by
  simp only [mainResolve, h1, h2, h3, h4, h5, h6, h7, h8, if_false, h9]

lemma cexFileSig_drop_root (t0 t1 t2 t3 : Nat) :
    (cexFileSig 0x42 0x53 0x4A 0x42 t0 t1 t2 t3).drop 0x20 = rootSlice := rfl

lemma cexFileSig_drop_tilda (t0 t1 t2 t3 : Nat) :
    (cexFileSig 0x42 0x53 0x4A 0x42 t0 t1 t2 t3).drop (0x20 + 0x40) = tildaSlice := rfl

lemma cexFileSigS_drop_root (s0 s1 s2 s3 : Nat) :
    (cexFileSig s0 s1 s2 s3 1 0 0 6).drop 0x20 = s0 :: s1 :: s2 :: s3 :: rootSliceTail := rfl

lemma cexFileSigS_drop_tilda (s0 s1 s2 s3 : Nat) :
    (cexFileSig s0 s1 s2 s3 1 0 0 6).drop (0x20 + 0x40) = tildaSlice := rfl

lemma rootSlice_decode : metadataRootDecode rootSlice 0 = some (cexRoot, 56) := rfl

lemma tildaSlice_decode : tildaStreamDecode tildaSlice = .ok (cexStream, 42) := rfl

lemma readCliHeader_cex (t0 t1 t2 t3 : Nat) :
    readCliHeader (cexFileSig 0x42 0x53 0x4A 0x42 t0 t1 t2 t3) 0 =
      some (⟨72, 2, 5, ⟨0x1020, 72⟩, 0, t0 + 256 * (t1 + 256 * (t2 + 256 * t3))⟩, 24) := rfl

lemma readCliHeader_sigBytes (s0 s1 s2 s3 : Nat) :
    readCliHeader (cexFileSig s0 s1 s2 s3 1 0 0 6) 0 =
      some (⟨72, 2, 5, ⟨0x1020, 72⟩, 0, 0x06000001⟩, 24) := rfl

lemma readCStr_cex (t0 t1 t2 t3 : Nat) :
    readCStr (cexFileSig 0x42 0x53 0x4A 0x42 t0 t1 t2 t3) (0x20 + 0x40 + 0x80 - 4) =
      some (oopsName, 225) := rfl

lemma readCStr_sigBytes (s0 s1 s2 s3 : Nat) :
    readCStr (cexFileSig s0 s1 s2 s3 1 0 0 6) (0x20 + 0x40 + 0x80 - 4) =
      some (oopsName, 225) := rfl

lemma metadataRootDecode_sigBytes (s0 s1 s2 s3 : Nat) :
    metadataRootDecode (s0 :: s1 :: s2 :: s3 :: rootSliceTail) 0 =
      some (⟨s0 + 256 * (s1 + 256 * (s2 + 256 * s3)), 1, 1, 0, 0, [], 0, 2,
        [⟨0x40, 256, tildeName⟩, ⟨0x80, 256, stringsName⟩]⟩, 56) := by
  simp [metadataRootDecode, readU32, readU16, readCStr, pad4, readStreamHeaders, readStreamHeader,
    rootSliceTail, tildeName, stringsName, List.get?]

lemma mainResolve_token_any (t0 t1 t2 t3 : Nat) :
    mainResolve (cexFileSig 0x42 0x53 0x4A 0x42 t0 t1 t2 t3) cexSections 0x200 0x1000 =
      .ok oopsName := by
  refine mainResolve_stages _ _ _ _ 0
      ⟨72, 2, 5, ⟨0x1020, 72⟩, 0, t0 + 256 * (t1 + 256 * (t2 + 256 * t3))⟩ 24 0x20 cexRoot 56
      ⟨0x40, 256, tildeName⟩ (cexStream, 42) ⟨0x80, 256, stringsName⟩ oopsName 225
      ?_ ?_ ?_ ?_ ?_ ?_ ?_ ?_ ?_
  · decide
  · exact readCliHeader_cex t0 t1 t2 t3
  · show find_offset 0x1020 cexSections 0x200 = some 0x20
    decide
  · rw [cexFileSig_drop_root]
    exact rootSlice_decode
  · rfl
  · show tildaStreamDecode ((cexFileSig 0x42 0x53 0x4A 0x42 t0 t1 t2 t3).drop (0x20 + 0x40)) =
      .ok (cexStream, 42)
    rw [cexFileSig_drop_tilda]
    exact tildaSlice_decode
  · rfl
  · decide
  · show readCStr (cexFileSig 0x42 0x53 0x4A 0x42 t0 t1 t2 t3) (0x20 + 0x40 + 0x80 - 4) =
      some (oopsName, 225)
    exact readCStr_cex t0 t1 t2 t3

lemma mainResolve_sig_any (s0 s1 s2 s3 : Nat) :
    mainResolve (cexFileSig s0 s1 s2 s3 1 0 0 6) cexSections 0x200 0x1000 = .ok oopsName := by
  refine mainResolve_stages _ _ _ _ 0 ⟨72, 2, 5, ⟨0x1020, 72⟩, 0, 0x06000001⟩ 24 0x20
      ⟨s0 + 256 * (s1 + 256 * (s2 + 256 * s3)), 1, 1, 0, 0, [], 0, 2,
        [⟨0x40, 256, tildeName⟩, ⟨0x80, 256, stringsName⟩]⟩ 56
      ⟨0x40, 256, tildeName⟩ (cexStream, 42) ⟨0x80, 256, stringsName⟩ oopsName 225
      ?_ ?_ ?_ ?_ ?_ ?_ ?_ ?_ ?_
  · decide
  · exact readCliHeader_sigBytes s0 s1 s2 s3
  · show find_offset 0x1020 cexSections 0x200 = some 0x20
    decide
  · rw [cexFileSigS_drop_root]
    exact metadataRootDecode_sigBytes s0 s1 s2 s3
  · rfl
  · show tildaStreamDecode ((cexFileSig s0 s1 s2 s3 1 0 0 6).drop (0x20 + 0x40)) =
      .ok (cexStream, 42)
    rw [cexFileSigS_drop_tilda]
    exact tildaSlice_decode
  · rfl
  · decide
  · show readCStr (cexFileSig s0 s1 s2 s3 1 0 0 6) (0x20 + 0x40 + 0x80 - 4) =
      some (oopsName, 225)
    exact readCStr_sigBytes s0 s1 s2 s3

/-! ### Row-count loop lemmas -/

lemma readU32_offset {src : List Nat} {off c o : Nat} (h : readU32 src off = some (c, o)) :
    o = off + 4 := by
  unfold readU32 at h
  split at h <;> simp_all

lemma readRowsAux_spec (src : List Nat) (valid : Nat) :
    ∀ (is : List Nat) (off : Nat) (rows : List (Nat × Nat)) (off' : Nat),
      readRowsAux src valid is off = some (rows, off') →
      rows.map Prod.fst = is.filter (fun i => decide (Nat.land valid (2 ^ i) = 2 ^ i)) ∧
      off' = off + 4 * rows.length := by
  intro is
  induction is with
  | nil =>
    intro off rows off' h
    simp only [readRowsAux, Option.some.injEq, Prod.mk.injEq] at h
    obtain ⟨h1, h2⟩ := h
    subst h1
    subst h2
    simp
  | cons i is ih =>
    intro off rows off' h
    simp only [readRowsAux] at h
    by_cases hb : Nat.land valid (2 ^ i) = 2 ^ i
    · rw [if_pos hb] at h
      cases hu : readU32 src off with
      | none =>
        rw [hu] at h
        exact absurd h (by simp)
      | some p =>
        obtain ⟨c, o1⟩ := p
        rw [hu] at h
        dsimp only at h
        cases hr : readRowsAux src valid is o1 with
        | none =>
          rw [hr] at h
          exact absurd h (by simp)
        | some q =>
          obtain ⟨tl, o2⟩ := q
          rw [hr] at h
          simp only [Option.some.injEq, Prod.mk.injEq] at h
          obtain ⟨hrows, hoff⟩ := h
          obtain ⟨hmap, ho2⟩ := ih o1 tl o2 hr
          have h4 : o1 = off + 4 := readU32_offset hu
          subst hrows
          subst hoff
          constructor
          · simp [List.filter_cons, hb, hmap]
          · simp only [List.length_cons]
            omega
    · rw [if_neg hb] at h
      obtain ⟨hmap, hoff⟩ := ih off rows off' h
      constructor
      · simp [List.filter_cons, hb, hmap]
      · exact hoff

lemma decide_land_eq_testBit (v i : Nat) :
    (decide (Nat.land v (2 ^ i) = 2 ^ i)) = v.testBit i := by
  have hland : Nat.land v (2 ^ i) = v &&& 2 ^ i := rfl
  rw [hland, Nat.and_two_pow]
  cases hb : v.testBit i
  · have hne : (0 : Nat) ≠ 2 ^ i := (Nat.two_pow_pos i).ne
    simp [hne]
  · simp

lemma filter_land_eq_filter_testBit (v : Nat) (is : List Nat) :
    is.filter (fun i => decide (Nat.land v (2 ^ i) = 2 ^ i)) =
      is.filter (fun i => v.testBit i) :=
  List.filter_congr (fun i _ => decide_land_eq_testBit v i)

/-! ### Claim theorems -/

/-- C1 (counterexample): the claim "for every successfully decoded image,
the program resolves the entry-point method name from the CLI header's
entry-point token via table id = token >> 24, row = low 3 bytes − 1, and
the row's name offset into the `#Strings` heap" is false: on the synthetic
image the pipeline succeeds and prints "Oops", while the token algorithm
applied to the decoded token 0x06000001, the decoded Method rows, and the
`#Strings` heap base 0xA0 yields "Main". -/
theorem c1_counterexample :
    mainResolve cexFile cexSections 0x200 0x1000 = .ok oopsName ∧
      readCliHeader cexFile 0 = some (⟨72, 2, 5, ⟨0x1020, 72⟩, 0, 0x06000001⟩, 24) ∧
      tildaStreamDecode (cexFile.drop 0x60) = .ok (cexStream, 42) ∧
      resolveEntryPoint cexFile 0x06000001 cexStream.methods 0xA0 = some mainName ∧
      mainName ≠ oopsName :=
  ⟨rfl, rfl, rfl, rfl, by decide⟩

/-- C1 (amended): the program does not consult the entry-point token at
all.  The name it prints is the null-terminated string at file offset
(metadata-root offset 0x20) + (`#~` stream offset 0x40) + (`#Strings`
stream offset 0x80) − 4: on the synthetic image this holds for every
value of the four token bytes. -/
theorem c1_theorem : ∀ t0 t1 t2 t3 : Nat,
    ∃ n e, readCStr (cexFileSig 0x42 0x53 0x4A 0x42 t0 t1 t2 t3) (0x20 + 0x40 + 0x80 - 4) =
        some (n, e) ∧
      mainResolve (cexFileSig 0x42 0x53 0x4A 0x42 t0 t1 t2 t3) cexSections 0x200 0x1000 =
        .ok n :=
  fun t0 t1 t2 t3 =>
    ⟨oopsName, 225, readCStr_cex t0 t1 t2 t3, mainResolve_token_any t0 t1 t2 t3⟩

/-- C2 (counterexample): the claim "an entry-point token with row index 0,
an out-of-range row, or a wrong table id makes the program fail with a
fatal error rather than produce a name" is false: the synthetic image with
token 0x06000000 (row index 0) still succeeds and produces a name. -/
theorem c2_counterexample :
    readCliHeader cexFileRow0 0 = some (⟨72, 2, 5, ⟨0x1020, 72⟩, 0, 0x06000000⟩, 24) ∧
      Nat.land 0x06000000 0xFFFFFF = 0 ∧
      mainResolve cexFileRow0 cexSections 0x200 0x1000 = .ok oopsName :=
  ⟨rfl, by decide, rfl⟩

/-- C2 (amended): the program performs no validation of the entry-point
token whatsoever: on the synthetic image it produces the same name for
every token value, including row index 0 (bytes 0,0,0,6), out-of-range
rows, and non-Method table ids. -/
theorem c2_theorem : ∀ t0 t1 t2 t3 : Nat,
    mainResolve (cexFileSig 0x42 0x53 0x4A 0x42 t0 t1 t2 t3) cexSections 0x200 0x1000 =
      .ok oopsName :=
  mainResolve_token_any

/-- C3 (counterexample): the claim "a metadata-root signature different
from the magic makes decoding fail and the program never proceeds past
the metadata root" is false: with all four signature bytes zeroed the
root decodes successfully and the whole pipeline still succeeds. -/
theorem c3_counterexample :
    metadataRootDecode (cexFileBadSig.drop 0x20) 0 = some (cexBadRoot, 56) ∧
      cexBadRoot.signature ≠ 0x424A5342 ∧
      mainResolve cexFileBadSig cexSections 0x200 0x1000 = .ok oopsName :=
  ⟨rfl, by decide, rfl⟩

/-- C3 (amended): the decoder reads the signature field and stores it
without comparing it against any magic value: for every value of the four
signature bytes, the metadata root decodes successfully (recording that
value as the signature) and the program proceeds past the metadata root
to a successful run. -/
theorem c3_theorem : ∀ s0 s1 s2 s3 : Nat,
    ∃ r, metadataRootDecode ((cexFileSig s0 s1 s2 s3 1 0 0 6).drop 0x20) 0 = some (r, 56) ∧
      r.signature = s0 + 256 * (s1 + 256 * (s2 + 256 * s3)) ∧
      mainResolve (cexFileSig s0 s1 s2 s3 1 0 0 6) cexSections 0x200 0x1000 = .ok oopsName := by
  intro s0 s1 s2 s3
  refine ⟨⟨s0 + 256 * (s1 + 256 * (s2 + 256 * s3)), 1, 1, 0, 0, [], 0, 2,
    [⟨0x40, 256, tildeName⟩, ⟨0x80, 256, stringsName⟩]⟩, ?_, rfl,
    mainResolve_sig_any s0 s1 s2 s3⟩
  rw [cexFileSigS_drop_root]
  exact metadataRootDecode_sigBytes s0 s1 s2 s3

/-- C4: for every virtual address inside a section's readable virtual
range, the computed file offset is (address − section.virtual_address) +
(section.pointer_to_raw_data masked down to a 512-byte boundary); in
particular, rva 0x2040 with section {va 0x2000, raw_ptr 0x200, raw_size
0x400} maps to file offset 0x240. -/
theorem c4_theorem :
    (∀ (rva : Nat) (s : SectionTable) (fa : Nat), is_in_section rva s fa = true →
      s.pointer_to_raw_data < 2 ^ 32 →
      rva2offset rva s = (rva - s.virtual_address) +
        (s.pointer_to_raw_data - s.pointer_to_raw_data % 0x200)) ∧
    find_offset 0x2040 [c4Section] 0x200 = some 0x240 := by
  constructor
  · intro rva s fa _ hp
    unfold rva2offset
    rw [aligned_pointer_eq _ (lt_trans hp (by norm_num))]
  · decide

/-- C4 (witness): the general conjunct evaluated at the scenario input. -/
theorem c4_witness :
    rva2offset 0x2040 c4Section =
      (0x2040 - c4Section.virtual_address) +
        (c4Section.pointer_to_raw_data - c4Section.pointer_to_raw_data % 0x200) :=
  c4_theorem.1 0x2040 c4Section 0x200 (by decide) (by decide)

/-- C5 (counterexample): the claim quantifies over every file-alignment
value, but for the non-power-of-two alignment 3 the code's masked
computation differs from genuine round-up: on the section {vsize 0, va 0,
raw_size 1, raw_ptr 1} the code yields 4 while the spec formula yields 3. -/
theorem c5_counterexample :
    section_read_size ⟨0, 0, 1, 1⟩ 3 ≠ section_read_size_spec ⟨0, 0, 1, 1⟩ 3 := by
  decide

/-- C5 (amended): for every section with 32-bit fields and every
power-of-two file alignment 2^k (k ≤ 32, as the PE format requires), the
readable size equals the spec's formula: candidate = round_up(raw_pointer
+ raw_size, file_alignment) clamped to round_up(raw_size, 0x1000); if the
virtual size is zero the readable size is the candidate, else the minimum
of the candidate and round_up(virtual_size, 0x1000). -/
theorem c5_theorem (s : SectionTable) (fa k : Nat) (hfa : fa = 2 ^ k) (hk : k ≤ 32)
    (hp : s.pointer_to_raw_data < 2 ^ 32) (hr : s.size_of_raw_data < 2 ^ 32)
    (hv : s.virtual_size < 2 ^ 32) :
    section_read_size s fa = section_read_size_spec s fa := by
  subst hfa
  have hpow_le : (2 : Nat) ^ k ≤ 2 ^ 32 := Nat.pow_le_pow_right (by norm_num) hk
  have hpos : 0 < (2 : Nat) ^ k := Nat.two_pow_pos k
  have hx : s.pointer_to_raw_data + s.size_of_raw_data + 2 ^ k - 1 < 2 ^ 64 := by
    have hbig : (2 : Nat) ^ 32 + 2 ^ 32 + 2 ^ 32 < 2 ^ 64 := by norm_num
    omega
  have h1 : Nat.land (s.pointer_to_raw_data + s.size_of_raw_data + 2 ^ k - 1)
      (usizeNot (2 ^ k - 1)) =
        roundUp (s.pointer_to_raw_data + s.size_of_raw_data) (2 ^ k) := by
    rw [land_usizeNot_mask _ k hx (by omega)]
    exact sub_mod_eq_roundUp _ _ hpos
  simp only [section_read_size, section_read_size_spec]
  rw [h1, round_size_eq _ hr, round_size_eq _ hv]

/-- C5 (witness): the amended equivalence evaluated at a concrete section
and the power-of-two alignment 0x200 = 2^9. -/
theorem c5_witness :
    section_read_size ⟨0x300, 0x2000, 0x400, 0x200⟩ 0x200 =
      section_read_size_spec ⟨0x300, 0x2000, 0x400, 0x200⟩ 0x200 :=
  c5_theorem ⟨0x300, 0x2000, 0x400, 0x200⟩ 0x200 9 (by norm_num) (by norm_num) (by norm_num)
    (by norm_num) (by norm_num)

/-- C6 (counterexample): the claim that an address inside a section's
mapped range maps to an offset inside that section's raw-data span
[raw_ptr, raw_ptr + raw_size) is false: for the section {vsize 0,
va 0x1000, raw_size 0x10, raw_ptr 0x200} the address 0x1300 is inside the
mapped range (readable size 0x400) but maps to offset 0x500, far past
raw_ptr + raw_size = 0x210. -/
theorem c6_counterexample :
    is_in_section 0x1300 c6Section 0x200 = true ∧
      find_offset 0x1300 [c6Section] 0x200 = some 0x500 ∧
      ¬ (c6Section.pointer_to_raw_data ≤ 0x500 ∧
          0x500 < c6Section.pointer_to_raw_data + c6Section.size_of_raw_data) :=
  ⟨by decide, by decide, by decide⟩

/-- C6 (amended): the mapper succeeds exactly when some section's mapped
virtual range contains the address, returning (address − section.va) +
align_down(section.raw_ptr, 0x200) for the first covering section — an
offset that need not lie inside that section's raw-data span; when no
section covers the address it returns the "unmappable" failure `none`. -/
theorem c6_theorem : ∀ (rva : Nat) (sections : List SectionTable) (fa : Nat),
    ((find_offset rva sections fa).isSome = true ↔
      ∃ s ∈ sections, is_in_section rva s fa = true) ∧
    (∀ o, find_offset rva sections fa = some o →
      ∃ s ∈ sections, is_in_section rva s fa = true ∧ o = rva2offset rva s) := by
  intro rva sections fa
  induction sections with
  | nil => simp [find_offset]
  | cons s rest ih =>
    by_cases h : is_in_section rva s fa = true
    · constructor
      · simp only [find_offset, h, if_true, Option.isSome_some, true_iff]
        exact ⟨s, List.mem_cons_self s rest, h⟩
      · intro o ho
        simp only [find_offset, h, if_true, Option.some.injEq] at ho
        exact ⟨s, List.mem_cons_self s rest, h, ho.symm⟩
    · have hfind : find_offset rva (s :: rest) fa = find_offset rva rest fa := by
        simp [find_offset, h]
      constructor
      · rw [hfind, ih.1]
        constructor
        · rintro ⟨s', hs', hsec⟩
          exact ⟨s', List.mem_cons_of_mem _ hs', hsec⟩
        · rintro ⟨s', hs', hsec⟩
          rcases List.mem_cons.mp hs' with heq | hmem
          · subst heq
            exact absurd hsec h
          · exact ⟨s', hmem, hsec⟩
      · intro o ho
        rw [hfind] at ho
        obtain ⟨s', hs', hsec, heq⟩ := ih.2 o ho
        exact ⟨s', List.mem_cons_of_mem _ hs', hsec, heq⟩

/-- C6 (witness): the formula conjunct evaluated at the counterexample
section, where the mapper succeeds. -/
theorem c6_witness :
    ∃ s ∈ [c6Section], is_in_section 0x1300 s 0x200 = true ∧
      0x500 = rva2offset 0x1300 s :=
  (c6_theorem 0x1300 [c6Section] 0x200).2 0x500 (by decide)

/-- C7: a successful row-count read consumes exactly popcount(valid)
32-bit fields (the final cursor is the initial one plus 4·popcount), and
the produced (table-id, count) pairs carry exactly the set bit indices of
the valid bitmask, in strictly ascending order; absent tables contribute
no field. -/
theorem c7_theorem : ∀ (src : List Nat) (valid off : Nat) (rows : List (Nat × Nat))
    (off' : Nat), readRows src valid off = some (rows, off') →
    rows.map Prod.fst = (List.range 64).filter (fun i => Nat.testBit valid i) ∧
    rows.length = popcount64 valid ∧
    List.Pairwise (· < ·) (rows.map Prod.fst) ∧
    off' = off + 4 * rows.length := by
  intro src valid off rows off' h
  obtain ⟨hmap, hoff⟩ := readRowsAux_spec src valid (List.range 64) off rows off' h
  rw [filter_land_eq_filter_testBit] at hmap
  refine ⟨hmap, ?_, ?_, hoff⟩
  · simp only [popcount64, ← hmap, List.length_map]
  · rw [hmap]
    exact List.Pairwise.filter _ (List.pairwise_lt_range 64)

/-- C7 (witness): the theorem evaluated on a 4-byte buffer with
valid = 2^6: one count is read and the cursor advances by 4. -/
theorem c7_witness :
    ([(6, 1)] : List (Nat × Nat)).map Prod.fst =
        (List.range 64).filter (fun i => Nat.testBit 64 i) ∧
      ([(6, 1)] : List (Nat × Nat)).length = popcount64 64 ∧
      List.Pairwise (· < ·) (([(6, 1)] : List (Nat × Nat)).map Prod.fst) ∧
      4 = 0 + 4 * ([(6, 1)] : List (Nat × Nat)).length :=
  c7_theorem [1, 0, 0, 0] 64 0 [(6, 1)] 4 (by rfl)

/-- C8: after each variable-length read in the metadata root, the cursor
advance performed by the source's padding step equals (4 − cursor % 4) %
4 — in particular the cursor does not move when already 4-byte aligned. -/
theorem c8_theorem : ∀ off : Nat,
    pad4 off = off + (4 - off % 4) % 4 ∧ (off % 4 = 0 → pad4 off = off) := by
  intro off
  have h4 : off % 4 < 4 := Nat.mod_lt _ (by norm_num)
  constructor
  · simp only [pad4]
    split <;> omega
  · intro h0
    simp only [pad4]
    split <;> omega

/-- C8 (witness): the padding rule evaluated at the unaligned cursor 17
and the aligned cursor 16. -/
theorem c8_witness : pad4 17 = 17 + (4 - 17 % 4) % 4 ∧ pad4 16 = 16 :=
  ⟨(c8_theorem 17).1, (c8_theorem 16).2 (by decide)⟩

/-- C9: a valid bitmask with bit 6 (the Method table) set and row count 0
contributes no Method rows and no error: the skip loop treats the pair
(6, 0) as a no-op, and a complete `#~` stream with only that table
decodes to an empty Method list. -/
theorem c9_theorem :
    (∀ (src : List Nat) (rest : List (Nat × Nat)) (off : Nat),
        skipTables src ((6, 0) :: rest) off = skipTables src rest off) ∧
      tildaStreamDecode c9Stream = .ok (⟨0, 2, 0, 0, 0, 64, 0, [(6, 0)], []⟩, 28) := by
  constructor
  · intro src rest off
    cases h : skipTables src rest off with
    | error e => simp [skipTables, readMethods, h]
    | ok p =>
      obtain ⟨tl, o2⟩ := p
      simp [skipTables, readMethods, h]
  · rfl

/-- C10: the table-skipping step is not total: the width table has only
36 entries, so any recorded pair whose table id is 36 or more makes the
skip step abort with an index-out-of-bounds panic rather than return a
decode error (a complete stream with valid = 2^36 panics), while a known
id of width 0 advances the cursor by zero bytes for any row count. -/
theorem c10_theorem :
    (∀ (src : List Nat) (i c : Nat) (rest : List (Nat × Nat)) (off : Nat), 36 ≤ i →
        skipTables src ((i, c) :: rest) off = .error .panicked) ∧
      (∀ (src : List Nat) (i c : Nat) (rest : List (Nat × Nat)) (off : Nat),
        table_sizes.get? i = some 0 →
        skipTables src ((i, c) :: rest) off = skipTables src rest off) ∧
      tildaStreamDecode c10Stream = .error .panicked := by
  refine ⟨?_, ?_, rfl⟩
  · intro src i c rest off hi
    have h6 : i ≠ 6 := by omega
    have hnone : table_sizes.get? i = none := by
      apply List.get?_eq_none.mpr
      have hlen : table_sizes.length = 36 := rfl
      omega
    simp only [skipTables]
    rw [if_neg h6, hnone]
  · intro src i c rest off h0
    have h6 : i ≠ 6 := by
      intro hi
      subst hi
      have h14 : table_sizes.get? 6 = some 14 := rfl
      rw [h14] at h0
      exact absurd h0 (by decide)
    simp only [skipTables]
    rw [if_neg h6, h0]
    simp

/-- C10 (witness): the panic conjunct at table id 36, and the zero-width
conjunct at table id 3. -/
theorem c10_witness :
    skipTables [] [(36, 1)] 0 = .error .panicked ∧
      skipTables [] [(3, 5)] 0 = skipTables [] [] 0 :=
  ⟨c10_theorem.1 [] 36 1 [] 0 (by decide), c10_theorem.2.1 [] 3 5 [] 0 (by decide)⟩
